import Mathlib

/-!
Shallow embedding of the FPL bills dashboard's data pipeline
(`fpl_streamlit_app.py`): CSV parsing and validation, per-record
derivation (unit cost, calendar parts), year selection, and the
yearly aggregates, together with theorems settling the specified
properties of that pipeline.

Numbers that the source holds as floats are modelled as exact
rationals, extended with the IEEE special values (`+inf`, `-inf`,
`NaN`) that arise from division by zero, since those special values
are what the pandas expressions in the source actually produce and
propagate.
-/

/-- A calendar date as carried by the `Date` column after
`pd.to_datetime` (no time component in this data). -/
structure Date where
  year : ℤ
  month : ℕ
  day : ℕ
deriving DecidableEq, Repr

/-- Lexicographic (calendar) order on dates, the order
`sort_values('Date')` sorts by. -/
def Date.le (a b : Date) : Prop :=
  a.year < b.year ∨
    (a.year = b.year ∧ (a.month < b.month ∨ (a.month = b.month ∧ a.day ≤ b.day)))

instance : DecidableRel Date.le := fun a b => by
  unfold Date.le; infer_instance

instance : IsTotal Date Date.le := ⟨fun a b => by unfold Date.le; omega⟩

instance : IsTrans Date Date.le := ⟨fun a b c hab hbc => by
  unfold Date.le at *; omega⟩

/-- An IEEE-double value as held in the `Unit_Cost` column: an exact
finite rational, one of the two infinities, or NaN. -/
inductive PFloat where
  | finite (q : ℚ)
  | posInf
  | negInf
  | nan
deriving DecidableEq, Repr

def PFloat.isNan : PFloat → Bool
  | .nan => true
  | _ => false

def PFloat.isInfinite : PFloat → Bool
  | .posInf => true
  | .negInf => true
  | _ => false

def PFloat.isFinite : PFloat → Bool
  | .finite _ => true
  | _ => false

/-- The finite value of a `PFloat`, defaulting to `0`. -/
def PFloat.finiteVal : PFloat → ℚ
  | .finite q => q
  | _ => 0

/-- IEEE float division of two finite values, as computed by
`df['Total'] / df['kWh']` (line 37 of the source): division by zero
yields a signed infinity, and `0/0` yields NaN. -/
def pdiv (t k : ℚ) : PFloat :=
  if k ≠ 0 then .finite (t / k)
  else if 0 < t then .posInf
  else if t < 0 then .negInf
  else .nan

/-- IEEE float addition on the embedded values. -/
def padd : PFloat → PFloat → PFloat
  | .nan, _ => .nan
  | _, .nan => .nan
  | .posInf, .negInf => .nan
  | .negInf, .posInf => .nan
  | .posInf, _ => .posInf
  | _, .posInf => .posInf
  | .negInf, _ => .negInf
  | _, .negInf => .negInf
  | .finite a, .finite b => .finite (a + b)

/-- Sum of a list of float values. -/
def psum (xs : List PFloat) : PFloat :=
  xs.foldr padd (.finite 0)

/-- Division of a float value by a (positive) count. -/
def pdivNat : PFloat → ℕ → PFloat
  | .finite q, n => .finite (q / n)
  | .posInf, _ => .posInf
  | .negInf, _ => .negInf
  | .nan, _ => .nan

/-- `Series.mean()` as pandas computes it (lines 73 and 168 of the
source): NaN entries are skipped, the remaining entries are summed and
divided by their count, and an empty or all-NaN series yields NaN.
Infinite entries are not skipped. -/
def seriesMean (xs : List PFloat) : PFloat :=
  if (xs.filter (fun x => !x.isNan)).length = 0 then .nan
  else pdivNat (psum (xs.filter (fun x => !x.isNan))) (xs.filter (fun x => !x.isNan)).length

/-- A process locale, as consulted by `strftime`: it supplies the full
month names, indexed 1 to 12. -/
structure PyLocale where
  monthName : ℕ → String

/-- The fixed 12-entry table of full English month names, as written
out literally in the source (lines 102 to 105) for chart ordering. -/
def monthTable : List String :=
  ["January", "February", "March", "April", "May", "June",
   "July", "August", "September", "October", "November", "December"]

/-- The default C / English locale, whose month names agree with the
fixed table. -/
def englishLocale : PyLocale := ⟨fun m => monthTable.getD (m - 1) ""⟩

/-- `date.strftime('%B')` (line 42 of the source): the current
locale's full name of the date's month. -/
def strftimeB (loc : PyLocale) (d : Date) : String := loc.monthName d.month

/-- One row of the derived dataframe returned by `load_fpl_data`:
the parsed `Date`, the numeric `kWh` and `Total` columns, and the
derived `Unit_Cost`, `Year`, `Month` and `Month_Name` columns. -/
structure DerivedRecord where
  date : Date
  kWh : ℚ
  Total : ℚ
  Unit_Cost : PFloat
  Year : ℤ
  Month : ℕ
  Month_Name : String
deriving DecidableEq, Repr

/-- The per-row derivation performed at lines 34 to 42 of the source:
`Unit_Cost = Total / kWh`, `Year`/`Month` from the date, `Month_Name`
via `strftime('%B')` under the given locale. -/
def deriveRow (loc : PyLocale) (d : Date) (k t : ℚ) : DerivedRecord :=
  ⟨d, k, t, pdiv t k, d.year, d.month, strftimeB loc d⟩

/-- Row-wise derivation over the three parsed columns. -/
def deriveAll (loc : PyLocale) : List Date → List ℚ → List ℚ → List DerivedRecord
  | d :: ds, k :: ks, t :: ts => deriveRow loc d k t :: deriveAll loc ds ks ts
  | _, _, _ => []

/-- The raw CSV as `pd.read_csv` delivers it: a header row and the
data rows, each a list of cells. -/
structure Csv where
  header : List String
  rows : List (List String)
deriving DecidableEq, Repr

/-- Cell of a row at a column index. -/
def getCell (row : List String) (i : ℕ) : String := row.getD i ""

/-- The exceptions the body of `load_fpl_data` can raise: `KeyError`
on a missing column (lines 34 and 37), the date-parse error raised by
`pd.to_datetime` (line 34), which carries the failing position and raw
value, and the bare `TypeError` raised by dividing non-numeric columns
(line 37), which carries no row, column or value information. -/
inductive PyError where
  | keyError (col : String)
  | dateParseError (rowIdx : ℕ) (raw : String)
  | typeError
deriving DecidableEq, Repr

/-- Split a list of characters on a separator character. -/
def splitOnChar (c : Char) : List Char → List (List Char)
  | [] => [[]]
  | x :: xs =>
    if x = c then [] :: splitOnChar c xs
    else
      match splitOnChar c xs with
      | [] => [[x]]
      | y :: ys => (x :: y) :: ys

/-- Read a non-empty run of decimal digits as a natural number. -/
def digitsToNat : List Char → Option ℕ
  | [] => none
  | l => l.foldl
      (fun acc c =>
        match acc with
        | none => none
        | some n => if c.isDigit then some (10 * n + (c.toNat - 48)) else none)
      (some 0)

/-- Parse one cell of the `Date` column in the single supported
calendar format `YYYY-MM-DD`. -/
def parseDate (s : String) : Option Date :=
  match splitOnChar '-' s.data with
  | [ys, ms, ds] =>
    match digitsToNat ys, digitsToNat ms, digitsToNat ds with
    | some y, some m, some d =>
      if 1 ≤ m ∧ m ≤ 12 ∧ 1 ≤ d ∧ d ≤ 31 then some ⟨(y : ℤ), m, d⟩ else none
    | _, _, _ => none
  | _ => none

/-- `pd.to_datetime(df['Date'])` (line 34): parse every cell of the
`Date` column, failing on the first cell that is not a date, with the
failing row's index and raw value. -/
def parseDates (iD : ℕ) : ℕ → List (List String) → Except PyError (List Date)
  | _, [] => .ok []
  | n, row :: rest =>
    match parseDate (getCell row iD) with
    | none => .error (.dateParseError n (getCell row iD))
    | some d =>
      match parseDates iD (n + 1) rest with
      | .error e => .error e
      | .ok ds => .ok (d :: ds)

/-- Parse one cell of a numeric column as a real number
(optional sign, decimal point allowed). -/
def parseUnsignedRat (l : List Char) : Option ℚ :=
  match splitOnChar '.' l with
  | [ip] => (digitsToNat ip).map (fun n => (n : ℚ))
  | [ip, fp] =>
    match digitsToNat ip, digitsToNat fp with
    | some i, some f => some ((i : ℚ) + (f : ℚ) / (10 ^ fp.length))
    | _, _ => none
  | _ => none

def parseRat (s : String) : Option ℚ :=
  match s.data with
  | [] => none
  | c :: rest =>
    if c = '-' then (parseUnsignedRat rest).map (fun q => -q)
    else parseUnsignedRat (c :: rest)

/-- Read a whole numeric column; `none` when any cell is non-numeric,
in which case the column is non-numeric and arithmetic on it raises a
`TypeError`. -/
def parseColRat (i : ℕ) : List (List String) → Option (List ℚ)
  | [] => some []
  | row :: rest =>
    match parseRat (getCell row i), parseColRat i rest with
    | some q, some qs => some (q :: qs)
    | _, _ => none

/-- The body of the `try` block of `load_fpl_data` (lines 31 to 44),
after the fetch: look up the `Date` column (KeyError when absent),
convert it to dates (fail-fast on the first bad date), look up
`Total` then `kWh` (KeyError when absent), divide the two columns
(TypeError when either is non-numeric), and build the derived rows. -/
def pipelineBody (loc : PyLocale) (c : Csv) : Except PyError (List DerivedRecord) :=
  match c.header.findIdx? (fun h => h == "Date") with
  | none => .error (.keyError "Date")
  | some iD =>
    match parseDates iD 0 c.rows with
    | .error e => .error e
    | .ok dates =>
      match c.header.findIdx? (fun h => h == "Total") with
      | none => .error (.keyError "Total")
      | some iT =>
        match c.header.findIdx? (fun h => h == "kWh") with
        | none => .error (.keyError "kWh")
        | some iK =>
          match parseColRat iT c.rows, parseColRat iK c.rows with
          | some ts, some ks => .ok (deriveAll loc dates ks ts)
          | _, _ => .error .typeError

/-- Outcome of the HTTP fetch (lines 26 to 28): either the response
text, or a raised request / status error. -/
inductive FetchOutcome where
  | success (c : Csv)
  | failure
deriving Repr

/-- `load_fpl_data` (lines 22 to 48): run the fetch and the pipeline
body inside `try`; any exception is caught and the function returns
`None` instead. -/
def load_fpl_data (loc : PyLocale) : FetchOutcome → Option (List DerivedRecord)
  | .failure => none
  | .success c => (pipelineBody loc c).toOption

/-- Order on derived rows used by `sort_values('Date')` (line 67). -/
def recLE (a b : DerivedRecord) : Prop := Date.le a.date b.date

instance : DecidableRel recLE := fun a b => by
  unfold recLE; infer_instance

instance : IsTotal DerivedRecord recLE :=
  ⟨fun a b => total_of Date.le a.date b.date⟩

instance : IsTrans DerivedRecord recLE :=
  ⟨fun a b c hab hbc => @Trans.trans Date Date Date Date.le Date.le Date.le _ a.date b.date c.date hab hbc⟩

/-- Lines 66 to 67: the rows of the selected year, sorted ascending
by date. -/
def year_df (df : List DerivedRecord) (y : ℤ) : List DerivedRecord :=
  List.insertionSort recLE (df.filter (fun r => decide (r.Year = y)))

/-- Line 71: `year_df['kWh'].sum()`. -/
def total_kwh (df : List DerivedRecord) (y : ℤ) : ℚ :=
  ((year_df df y).map (fun r => r.kWh)).sum

/-- Line 72: `year_df['Total'].sum()`. -/
def total_cost (df : List DerivedRecord) (y : ℤ) : ℚ :=
  ((year_df df y).map (fun r => r.Total)).sum

/-- Line 73: `year_df['Unit_Cost'].mean()`. -/
def avg_unit_cost (df : List DerivedRecord) (y : ℤ) : PFloat :=
  seriesMean ((year_df df y).map (fun r => r.Unit_Cost))

/-- Line 74: `len(year_df)`. -/
def num_bills (df : List DerivedRecord) (y : ℤ) : ℕ :=
  (year_df df y).length

/-- Line 58: `sorted(df['Year'].unique())`. -/
def available_years (df : List DerivedRecord) : List ℤ :=
  List.insertionSort (· ≤ ·) (df.map (fun r => r.Year)).dedup

/-- One row of the year-over-year table built at lines 165 to 169. -/
structure AnnualRow where
  Year : ℤ
  kWh : ℚ
  Total : ℚ
  Unit_Cost : PFloat
deriving DecidableEq, Repr

/-- The rows of one year group of `df.groupby('Year')`, in original
order. -/
def groupRows (df : List DerivedRecord) (y : ℤ) : List DerivedRecord :=
  df.filter (fun r => decide (r.Year = y))

/-- Lines 165 to 169: `df.groupby('Year').agg(kWh sum, Total sum,
Unit_Cost mean)`, keys sorted ascending. -/
def annual_summary (df : List DerivedRecord) : List AnnualRow :=
  (available_years df).map (fun y =>
    ⟨y, ((groupRows df y).map (fun r => r.kWh)).sum,
        ((groupRows df y).map (fun r => r.Total)).sum,
        seriesMean ((groupRows df y).map (fun r => r.Unit_Cost))⟩)

/-- The year-over-year table as actually produced: only inside
`if len(year_df) > 0` (line 82) and `if len(available_years) > 1`
(line 161); otherwise no table is built. -/
def annual_summary_view (df : List DerivedRecord) (selected : ℤ) :
    Option (List AnnualRow) :=
  if 0 < (year_df df selected).length then
    if 1 < (available_years df).length then some (annual_summary df) else none
  else none

/-! ## Helper lemmas about the embedded float arithmetic -/

lemma psum_cons (x : PFloat) (l : List PFloat) : psum (x :: l) = padd x (psum l) := rfl

lemma padd_left_comm (a b c : PFloat) : padd a (padd b c) = padd b (padd a c) := by
  cases a <;> cases b <;> cases c <;> simp [padd] <;> ring

lemma psum_perm {xs ys : List PFloat} (h : xs.Perm ys) : psum xs = psum ys :=
  h.foldr_eq' (fun x _ y _ z => padd_left_comm y x z) _

lemma seriesMean_perm {xs ys : List PFloat} (h : xs.Perm ys) :
    seriesMean xs = seriesMean ys := by
  have hf := h.filter (fun x => !x.isNan)
  unfold seriesMean
  rw [psum_perm hf, hf.length_eq]

lemma psum_all_finite {xs : List PFloat} (h : ∀ x ∈ xs, x.isFinite = true) :
    psum xs = .finite ((xs.map PFloat.finiteVal).sum) := by
  induction xs with
  | nil => simp [psum]
  | cons a l ih =>
    have ha := h a (by simp)
    obtain ⟨q, rfl⟩ : ∃ q, a = PFloat.finite q := by
      cases a <;> simp_all [PFloat.isFinite]
    rw [psum_cons, ih (fun x hx => h x (List.mem_cons_of_mem _ hx))]
    simp [padd, PFloat.finiteVal]

lemma psum_ne_neg_nan {xs : List PFloat}
    (hno : ∀ x ∈ xs, x ≠ .negInf ∧ x ≠ .nan) :
    psum xs ≠ .negInf ∧ psum xs ≠ .nan := by
  induction xs with
  | nil => simp [psum]
  | cons a l ih =>
    have ha := hno a (by simp)
    have hl := ih (fun x hx => hno x (List.mem_cons_of_mem a hx))
    rw [psum_cons]
    cases a <;> rcases hs : psum l with q | _ | _ | _ <;> simp_all [padd]

lemma psum_posInf {xs : List PFloat} (hmem : PFloat.posInf ∈ xs)
    (hno : ∀ x ∈ xs, x ≠ .negInf ∧ x ≠ .nan) : psum xs = .posInf := by
  induction xs with
  | nil => simp at hmem
  | cons a l ih =>
    have ha := hno a (by simp)
    have hl := @psum_ne_neg_nan l (fun x hx => hno x (List.mem_cons_of_mem a hx))
    rw [psum_cons]
    rcases List.mem_cons.mp hmem with rfl | hmem2
    · rcases hs : psum l with q | _ | _ | _ <;> simp_all [padd]
    · rw [ih hmem2 (fun x hx => hno x (List.mem_cons_of_mem a hx))]
      cases a <;> simp_all [padd]

lemma seriesMean_all_nan {xs : List PFloat} (h : ∀ x ∈ xs, x.isNan = true) :
    seriesMean xs = .nan := by
  have : xs.filter (fun x => !x.isNan) = [] :=
    List.filter_eq_nil_iff.mpr (fun a ha => by simp [h a ha])
  unfold seriesMean
  simp [this]

lemma seriesMean_all_finite {xs : List PFloat} (h : ∀ x ∈ xs, x.isFinite = true)
    (hne : xs ≠ []) :
    seriesMean xs = .finite ((xs.map PFloat.finiteVal).sum / xs.length) := by
  have hfil : xs.filter (fun x => !x.isNan) = xs :=
    List.filter_eq_self.mpr (fun a ha => by
      have := h a ha; cases a <;> simp_all [PFloat.isFinite, PFloat.isNan])
  have hlen : xs.length ≠ 0 := by simpa [List.length_eq_zero] using hne
  unfold seriesMean
  rw [hfil, psum_all_finite h]
  simp [hlen, pdivNat]

lemma seriesMean_posInf {xs : List PFloat} (hmem : PFloat.posInf ∈ xs)
    (hno : ∀ x ∈ xs, x ≠ .negInf) : seriesMean xs = .posInf := by
  have hmem2 : PFloat.posInf ∈ xs.filter (fun x => !x.isNan) :=
    List.mem_filter.mpr ⟨hmem, by simp [PFloat.isNan]⟩
  have hno2 : ∀ x ∈ xs.filter (fun x => !x.isNan), x ≠ .negInf ∧ x ≠ .nan := by
    intro x hx
    refine ⟨hno x (List.mem_filter.mp hx).1, ?_⟩
    have := (List.mem_filter.mp hx).2
    cases x <;> simp_all [PFloat.isNan]
  have hlen : (xs.filter (fun x => !x.isNan)).length ≠ 0 := by
    simpa [List.length_eq_zero] using List.ne_nil_of_mem hmem2
  unfold seriesMean
  rw [psum_posInf hmem2 hno2]
  simp [hlen, pdivNat]

/-! ## Helper lemmas about selection and grouping -/

lemma year_df_perm (df : List DerivedRecord) (y : ℤ) :
    (year_df df y).Perm (groupRows df y) :=
  List.perm_insertionSort _ _

lemma mem_year_df {df : List DerivedRecord} {y : ℤ} {r : DerivedRecord} :
    r ∈ year_df df y ↔ r ∈ df ∧ r.Year = y := by
  simp [year_df, List.mem_filter]

lemma avg_unit_cost_eq_group (df : List DerivedRecord) (y : ℤ) :
    avg_unit_cost df y = seriesMean ((groupRows df y).map (fun r => r.Unit_Cost)) :=
  seriesMean_perm ((year_df_perm df y).map _)

lemma total_kwh_eq_group (df : List DerivedRecord) (y : ℤ) :
    total_kwh df y = ((groupRows df y).map (fun r => r.kWh)).sum :=
  ((year_df_perm df y).map _).sum_eq

lemma total_cost_eq_group (df : List DerivedRecord) (y : ℤ) :
    total_cost df y = ((groupRows df y).map (fun r => r.Total)).sum :=
  ((year_df_perm df y).map _).sum_eq

lemma num_bills_eq_group (df : List DerivedRecord) (y : ℤ) :
    num_bills df y = (groupRows df y).length :=
  (year_df_perm df y).length_eq

lemma mem_available_years {df : List DerivedRecord} {y : ℤ} :
    y ∈ available_years df ↔ ∃ r ∈ df, r.Year = y := by
  simp [available_years, List.mem_dedup]

/-! ## Scenario data -/

/-- The raw input of Scenario A: rows (2024-01-15, 500, 75.00) and
(2024-02-15, 600, 90.00). -/
def scenarioAInput : Csv :=
  ⟨["Date", "kWh", "Total"],
   [["2024-01-15", "500", "75.00"], ["2024-02-15", "600", "90.00"]]⟩

/-- The derived records the pipeline produces from Scenario A's input. -/
def scenarioARecords : List DerivedRecord :=
  [deriveRow englishLocale ⟨2024, 1, 15⟩ 500 75,
   deriveRow englishLocale ⟨2024, 2, 15⟩ 600 90]

lemma parseRat_7500 : parseRat "75.00" = some 75 := by
  have h1 : digitsToNat ['7', '5'] = some 75 := by decide
  have h2 : digitsToNat ['0', '0'] = some 0 := by decide
  simp +decide [parseRat, parseUnsignedRat, splitOnChar, h1, h2]

lemma parseRat_9000 : parseRat "90.00" = some 90 := by
  have h1 : digitsToNat ['9', '0'] = some 90 := by decide
  have h2 : digitsToNat ['0', '0'] = some 0 := by decide
  simp +decide [parseRat, parseUnsignedRat, splitOnChar, h1, h2]

lemma parseRat_500 : parseRat "500" = some 500 := by
  have h1 : digitsToNat ['5', '0', '0'] = some 500 := by decide
  simp +decide [parseRat, parseUnsignedRat, splitOnChar, h1]

lemma parseRat_600 : parseRat "600" = some 600 := by
  have h1 : digitsToNat ['6', '0', '0'] = some 600 := by decide
  simp +decide [parseRat, parseUnsignedRat, splitOnChar, h1]

set_option maxHeartbeats 1000000 in
lemma scenarioA_load :
    load_fpl_data englishLocale (.success scenarioAInput) = some scenarioARecords := by
  have d1 : parseDate "2024-01-15" = some ⟨2024, 1, 15⟩ := by decide
  have d2 : parseDate "2024-02-15" = some ⟨2024, 2, 15⟩ := by decide
  simp +decide [load_fpl_data, scenarioAInput, scenarioARecords, pipelineBody,
    parseDates, parseColRat, getCell, deriveAll, List.findIdx?_cons, List.findIdx?_nil,
    d1, d2, parseRat_7500, parseRat_9000, parseRat_500, parseRat_600, Except.toOption]

/-! ## Claim theorems -/

/-- Claim C1, amended: for every derived record, when `kWh > 0` the
`Unit_Cost` is exactly `Total / kWh`; when `kWh == 0` it is the IEEE
division result — `+inf` for positive `Total`, `-inf` for negative
`Total`, `NaN` for zero `Total` — and in particular never a finite
value, but also not a distinguishable undefined marker. -/
theorem C1_unit_cost (loc : PyLocale) (d : Date) (k t : ℚ) :
    (0 < k → (deriveRow loc d k t).Unit_Cost = PFloat.finite (t / k)) ∧
    (k = 0 → (deriveRow loc d k t).Unit_Cost =
      (if 0 < t then PFloat.posInf else if t < 0 then PFloat.negInf else PFloat.nan)) ∧
    (k = 0 → (deriveRow loc d k t).Unit_Cost.isFinite = false) := by
  refine ⟨fun hk => ?_, fun hk => ?_, fun hk => ?_⟩
  · simp [deriveRow, pdiv, ne_of_gt hk]
  · simp [deriveRow, pdiv, hk]
  · subst hk
    simp only [deriveRow, pdiv]
    split_ifs <;> simp_all [PFloat.isFinite]

/-- Claim C1, counterexample: a record with `kWh = 0` and
`Total = 10` gets `Unit_Cost = +inf` — an infinity, not the
distinguishable non-infinite undefined marker the claim requires. -/
theorem C1_counterexample :
    (deriveRow englishLocale ⟨2024, 1, 15⟩ 0 10).Unit_Cost = PFloat.posInf ∧
    ((deriveRow englishLocale ⟨2024, 1, 15⟩ 0 10).Unit_Cost).isInfinite = true := by
  decide

/-- Witness for C1 at concrete inputs. -/
theorem C1_witness :
    (0 : ℚ) < 500 ∧
    (deriveRow englishLocale ⟨2024, 1, 15⟩ 500 75).Unit_Cost = PFloat.finite (75 / 500) ∧
    (deriveRow englishLocale ⟨2024, 2, 15⟩ 0 0).Unit_Cost.isFinite = false :=
  ⟨by norm_num,
   (C1_unit_cost englishLocale ⟨2024, 1, 15⟩ 500 75).1 (by norm_num),
   (C1_unit_cost englishLocale ⟨2024, 2, 15⟩ 0 0).2.2 rfl⟩

/-- Claim C2, amended: `avg_unit_cost` is pandas' NaN-skipping mean:
when every unit cost of the group is NaN the result is NaN (not a
distinct undefined marker); when every unit cost is finite it is the
arithmetic mean of all of them; but an infinite unit cost (from
`kWh = 0` with nonzero `Total`) is NOT excluded — one `+inf` entry
(and no `-inf`) forces the group mean to `+inf` instead of the mean of
the defined values. Each `AnnualSummary` row carries the same mean as
the per-year aggregate of its year. -/
theorem C2_avg_unit_cost (df : List DerivedRecord) (y : ℤ) :
    ((∀ r ∈ year_df df y, r.Unit_Cost.isNan = true) → avg_unit_cost df y = PFloat.nan) ∧
    ((∀ r ∈ year_df df y, r.Unit_Cost.isFinite = true) → year_df df y ≠ [] →
      avg_unit_cost df y = PFloat.finite
        ((((year_df df y).map (fun r => r.Unit_Cost)).map PFloat.finiteVal).sum
          / (num_bills df y))) ∧
    ((∃ r ∈ year_df df y, r.Unit_Cost = PFloat.posInf) →
      (∀ r ∈ year_df df y, r.Unit_Cost ≠ PFloat.negInf) →
      avg_unit_cost df y = PFloat.posInf) ∧
    (∀ row ∈ annual_summary df, row.Unit_Cost = avg_unit_cost df row.Year) := by
  refine ⟨fun h => ?_, fun h hne => ?_, fun hex hno => ?_, fun row hrow => ?_⟩
  · exact seriesMean_all_nan (by simpa using fun r hr => h r hr)
  · have hlen : ((year_df df y).map (fun r => r.Unit_Cost)).length = num_bills df y := by
      simp [num_bills]
    rw [show avg_unit_cost df y = seriesMean ((year_df df y).map (fun r => r.Unit_Cost))
        from rfl,
      seriesMean_all_finite (by simpa using fun r hr => h r hr)
        (by simpa using hne), hlen]
  · refine seriesMean_posInf ?_ (by simpa using fun r hr => hno r hr)
    obtain ⟨r, hr, hru⟩ := hex
    exact List.mem_map.mpr ⟨r, hr, hru⟩
  · simp only [annual_summary, List.mem_map] at hrow
    obtain ⟨y2, hy2, rfl⟩ := hrow
    simp [avg_unit_cost_eq_group]

/-- Claim C2, counterexample: a 2024 group of two records, one with
undefined unit cost (`kWh = 0`, `Total = 10`) and one with unit cost
`0.15`; the claim requires `avg_unit_cost = 0.15`, the mean over the
single defined value, but the code propagates the infinite entry and
yields `+inf`. -/
theorem C2_counterexample :
    avg_unit_cost [deriveRow englishLocale ⟨2024, 1, 15⟩ 0 10,
                   deriveRow englishLocale ⟨2024, 2, 15⟩ 500 75] 2024 = PFloat.posInf ∧
    PFloat.posInf ≠ PFloat.finite (75 / 500) := by
  constructor
  · decide
  · simp

/-- Witness for C2 at concrete inputs. -/
theorem C2_witness :
    avg_unit_cost [deriveRow englishLocale ⟨2024, 1, 15⟩ 0 0] 2024 = PFloat.nan ∧
    avg_unit_cost [deriveRow englishLocale ⟨2024, 1, 15⟩ 0 10] 2024 = PFloat.posInf ∧
    avg_unit_cost [deriveRow englishLocale ⟨2024, 1, 15⟩ 500 75] 2024 =
      PFloat.finite (3 / 20) := by
  refine ⟨(C2_avg_unit_cost _ 2024).1 (by decide),
    (C2_avg_unit_cost _ 2024).2.2.1 (by decide) (by decide), ?_⟩
  have h := (C2_avg_unit_cost [deriveRow englishLocale ⟨2024, 1, 15⟩ 500 75] 2024).2.1
    (by decide) (by decide)
  rw [h]
  norm_num [year_df, num_bills, deriveRow, recLE, Date.le, List.insertionSort,
    List.orderedInsert, strftimeB, pdiv, PFloat.finiteVal]

/-- Claim C5, confirmed: `year_df` contains exactly the records whose
year equals the target (same multiset as the filtered input), sorted
ascending by date, for every input order. -/
theorem C5_selectYear (df : List DerivedRecord) (y : ℤ) :
    (∀ r, r ∈ year_df df y ↔ r ∈ df ∧ r.Year = y) ∧
    (year_df df y).Perm (df.filter (fun r => decide (r.Year = y))) ∧
    List.Sorted recLE (year_df df y) :=
  ⟨fun _ => mem_year_df, List.perm_insertionSort _ _, List.sorted_insertionSort recLE _⟩

/-- Claim C7, confirmed: `available_years` lists exactly the distinct
years present in the data, without duplicates, sorted ascending. -/
theorem C7_available_years (df : List DerivedRecord) :
    (∀ y, y ∈ available_years df ↔ ∃ r ∈ df, r.Year = y) ∧
    (available_years df).Nodup ∧
    List.Sorted (· ≤ ·) (available_years df) := by
  refine ⟨fun y => mem_available_years, ?_, List.sorted_insertionSort _ _⟩
  exact ((List.perm_insertionSort _ _).nodup_iff).mpr (List.nodup_dedup _)

/-- Claim C6, confirmed: the year aggregate's `total_kwh`/`total_cost`
are the sums over exactly the records of the target year and
`num_bills` is their count; a year with no matching records yields an
empty subset, zero sums, zero count and a NaN (non-numeric, hence
undefined) mean, with no error; and Scenario A's input produces
`total_kwh = 1100`, `total_cost = 165`, `avg_unit_cost = 0.15`,
`bill_count = 2` for 2024. -/
theorem C6_year_aggregate (df : List DerivedRecord) (y : ℤ) :
    total_kwh df y = ((df.filter (fun r => decide (r.Year = y))).map (fun r => r.kWh)).sum ∧
    total_cost df y = ((df.filter (fun r => decide (r.Year = y))).map (fun r => r.Total)).sum ∧
    num_bills df y = (df.filter (fun r => decide (r.Year = y))).length ∧
    ((∀ r ∈ df, r.Year ≠ y) →
      year_df df y = [] ∧ total_kwh df y = 0 ∧ total_cost df y = 0 ∧
        num_bills df y = 0 ∧ avg_unit_cost df y = PFloat.nan ∧
        (avg_unit_cost df y).isFinite = false) ∧
    (load_fpl_data englishLocale (.success scenarioAInput) = some scenarioARecords ∧
      total_kwh scenarioARecords 2024 = 1100 ∧
      total_cost scenarioARecords 2024 = 165 ∧
      avg_unit_cost scenarioARecords 2024 = PFloat.finite (3 / 20) ∧
      num_bills scenarioARecords 2024 = 2) := by
  have hempty : (∀ r ∈ df, r.Year ≠ y) →
      df.filter (fun r => decide (r.Year = y)) = [] := fun h =>
    List.filter_eq_nil_iff.mpr (fun r hr => by simp [h r hr])
  refine ⟨total_kwh_eq_group df y, total_cost_eq_group df y, num_bills_eq_group df y,
    fun h => ?_, scenarioA_load, ?_, ?_, ?_, ?_⟩
  · have hy : year_df df y = [] := by
      simp [year_df, hempty h]
    refine ⟨hy, ?_, ?_, ?_, ?_, ?_⟩ <;>
      simp [total_kwh, total_cost, num_bills, avg_unit_cost, hy, seriesMean,
        PFloat.isFinite]
  · norm_num [total_kwh, year_df, scenarioARecords, deriveRow, recLE, Date.le,
      List.insertionSort, List.orderedInsert, strftimeB]
  · norm_num [total_cost, year_df, scenarioARecords, deriveRow, recLE, Date.le,
      List.insertionSort, List.orderedInsert, strftimeB]
  · norm_num [avg_unit_cost, year_df, scenarioARecords, deriveRow, recLE, Date.le,
      List.insertionSort, List.orderedInsert, strftimeB, seriesMean, psum, padd,
      pdiv, pdivNat, PFloat.isNan]
  · norm_num [num_bills, year_df, scenarioARecords, deriveRow, recLE, Date.le,
      List.insertionSort, List.orderedInsert, strftimeB]

/-- Witness for C6: a dataset with only 2024 records queried for 2023. -/
theorem C6_witness :
    year_df scenarioARecords 2023 = [] ∧ total_kwh scenarioARecords 2023 = 0 ∧
    total_cost scenarioARecords 2023 = 0 ∧ num_bills scenarioARecords 2023 = 0 ∧
    avg_unit_cost scenarioARecords 2023 = PFloat.nan ∧
    (avg_unit_cost scenarioARecords 2023).isFinite = false :=
  (C6_year_aggregate scenarioARecords 2023).2.2.2.1 (by decide)

/-! ## Helper lemmas about the parsing pipeline -/

lemma findIdx?_beq_none {s : String} {l : List String} (h : s ∉ l) (i : ℕ) :
    List.findIdx? (fun x => x == s) l i = none := by
  induction l generalizing i with
  | nil => simp
  | cons a l ih =>
    rw [List.findIdx?_cons]
    have ha : (a == s) = false := by
      simpa using fun e => h (by simp [e])
    simp only [ha, Bool.false_eq_true, if_false]
    exact ih (fun hm => h (List.mem_cons_of_mem a hm)) (i + 1)

lemma mem_of_findIdx?_beq {s : String} {l : List String} {i : ℕ}
    (h : List.findIdx? (fun x => x == s) l = some i) : s ∈ l := by
  by_contra hc
  rw [findIdx?_beq_none hc 0] at h
  cases h

lemma parseDates_ok_of_all {iD : ℕ} {rows : List (List String)} (n : ℕ)
    (h : ∀ row ∈ rows, (parseDate (getCell row iD)).isSome) :
    ∃ ds, parseDates iD n rows = .ok ds := by
  induction rows generalizing n with
  | nil => exact ⟨[], rfl⟩
  | cons row rest ih =>
    have h0 := h row (by simp)
    rcases hp : parseDate (getCell row iD) with _ | d
    · rw [hp] at h0; simp at h0
    · obtain ⟨ds, hds⟩ := ih (n + 1) (fun r hr => h r (List.mem_cons_of_mem _ hr))
      exact ⟨d :: ds, by simp only [parseDates, hp, hds]⟩

lemma parseDates_error_of_bad {iD : ℕ} {rows : List (List String)} (n : ℕ)
    (h : ∃ row ∈ rows, parseDate (getCell row iD) = none) :
    ∃ i raw, parseDates iD n rows = .error (.dateParseError i raw) ∧
      parseDate raw = none := by
  induction rows generalizing n with
  | nil => simp at h
  | cons row rest ih =>
    rcases hp : parseDate (getCell row iD) with _ | d
    · exact ⟨n, getCell row iD, by simp only [parseDates, hp], hp⟩
    · obtain ⟨r2, hr2, hbad⟩ := h
      rcases List.mem_cons.mp hr2 with rfl | hmem
      · rw [hp] at hbad; cases hbad
      · obtain ⟨i, raw, heq, hraw⟩ := ih (n + 1) ⟨r2, hmem, hbad⟩
        exact ⟨i, raw, by simp only [parseDates, hp, heq], hraw⟩

lemma parseDates_ok_mem {iD n : ℕ} {rows : List (List String)} {dates : List Date}
    (h : parseDates iD n rows = .ok dates) :
    ∀ d ∈ dates, ∃ s, parseDate s = some d := by
  induction rows generalizing n dates with
  | nil =>
    simp only [parseDates] at h
    cases h; simp
  | cons row rest ih =>
    rcases hp : parseDate (getCell row iD) with _ | d0 <;>
      simp only [parseDates, hp] at h
    · cases h
    · rcases hr : parseDates iD (n + 1) rest with e | ds0 <;> rw [hr] at h
      · cases h
      · cases h
        intro d hd
        rcases List.mem_cons.mp hd with rfl | hd2
        · exact ⟨_, hp⟩
        · exact ih hr d hd2

lemma parseColRat_none_of_bad {i : ℕ} {rows : List (List String)}
    (h : ∃ row ∈ rows, parseRat (getCell row i) = none) :
    parseColRat i rows = none := by
  induction rows with
  | nil => simp at h
  | cons row rest ih =>
    obtain ⟨r2, hr2, hbad⟩ := h
    rcases List.mem_cons.mp hr2 with rfl | hmem
    · rcases hr : parseColRat i rest with _ | qs <;>
        simp only [parseColRat, hbad, hr]
    · rcases hc : parseRat (getCell row i) with _ | q <;>
        simp only [parseColRat, hc, ih ⟨r2, hmem, hbad⟩]

lemma deriveAll_mem {loc : PyLocale} {ds : List Date} {ks ts : List ℚ}
    {r : DerivedRecord} (h : r ∈ deriveAll loc ds ks ts) :
    ∃ d k t, d ∈ ds ∧ r = deriveRow loc d k t := by
  induction ds generalizing ks ts with
  | nil => simp [deriveAll] at h
  | cons d ds ih =>
    cases ks with
    | nil => simp [deriveAll] at h
    | cons k ks =>
      cases ts with
      | nil => simp [deriveAll] at h
      | cons t ts =>
        simp only [deriveAll] at h
        rcases List.mem_cons.mp h with rfl | h2
        · exact ⟨d, k, t, by simp, rfl⟩
        · obtain ⟨d0, k0, t0, hd0, hr⟩ := ih h2
          exact ⟨d0, k0, t0, List.mem_cons_of_mem _ hd0, hr⟩

lemma parseDate_month_range {s : String} {d : Date} (h : parseDate s = some d) :
    1 ≤ d.month ∧ d.month ≤ 12 := by
  unfold parseDate at h
  repeat' split at h
  all_goals cases h
  rename_i hguard
  exact ⟨hguard.1, hguard.2.1⟩

lemma pipelineBody_ok_mem {loc : PyLocale} {c : Csv} {recs : List DerivedRecord}
    (h : pipelineBody loc c = .ok recs) :
    ∀ r ∈ recs, ∃ s d k t, parseDate s = some d ∧ r = deriveRow loc d k t := by
  unfold pipelineBody at h
  rcases hfD : c.header.findIdx? (fun x => x == "Date") with _ | iD <;>
    simp only [hfD] at h
  · cases h
  rcases hpd : parseDates iD 0 c.rows with e | ds <;> simp only [hpd] at h
  · cases h
  rcases hfT : c.header.findIdx? (fun x => x == "Total") with _ | iT <;>
    simp only [hfT] at h
  · cases h
  rcases hfK : c.header.findIdx? (fun x => x == "kWh") with _ | iK <;>
    simp only [hfK] at h
  · cases h
  rcases hT : parseColRat iT c.rows with _ | ts <;> simp only [hT] at h
  · cases h
  rcases hK : parseColRat iK c.rows with _ | ks <;> simp only [hK] at h
  · cases h
  cases h
  intro r hr
  obtain ⟨d, k, t, hd, rfl⟩ := deriveAll_mem hr
  obtain ⟨s, hs⟩ := parseDates_ok_mem hpd d hd
  exact ⟨s, d, k, t, hs, rfl⟩

lemma load_none_of_error {loc : PyLocale} {c : Csv} {e : PyError}
    (h : pipelineBody loc c = .error e) : load_fpl_data loc (.success c) = none := by
  simp [load_fpl_data, h, Except.toOption]

lemma pipelineBody_error_of_missing {loc : PyLocale} {c : Csv}
    (h : "Date" ∉ c.header ∨ "kWh" ∉ c.header ∨ "Total" ∉ c.header) :
    ∃ e, pipelineBody loc c = .error e := by
  rcases hfD : c.header.findIdx? (fun x => x == "Date") with _ | iD
  · exact ⟨.keyError "Date", by simp only [pipelineBody, hfD]⟩
  rcases hpd : parseDates iD 0 c.rows with e | ds
  · exact ⟨e, by simp only [pipelineBody, hfD, hpd]⟩
  rcases hfT : c.header.findIdx? (fun x => x == "Total") with _ | iT
  · exact ⟨.keyError "Total", by simp only [pipelineBody, hfD, hpd, hfT]⟩
  rcases hfK : c.header.findIdx? (fun x => x == "kWh") with _ | iK
  · exact ⟨.keyError "kWh", by simp only [pipelineBody, hfD, hpd, hfT, hfK]⟩
  exfalso
  rcases h with h | h | h
  · exact h (mem_of_findIdx?_beq hfD)
  · exact h (mem_of_findIdx?_beq hfK)
  · exact h (mem_of_findIdx?_beq hfT)

lemma pipelineBody_missing_date {loc : PyLocale} {c : Csv} (h : "Date" ∉ c.header) :
    pipelineBody loc c = .error (.keyError "Date") := by
  simp only [pipelineBody, findIdx?_beq_none h 0]

lemma pipelineBody_missing_total {loc : PyLocale} {c : Csv} {iD : ℕ}
    (hD : c.header.findIdx? (fun x => x == "Date") = some iD)
    (hall : ∀ row ∈ c.rows, (parseDate (getCell row iD)).isSome)
    (h : "Total" ∉ c.header) :
    pipelineBody loc c = .error (.keyError "Total") := by
  obtain ⟨ds, hds⟩ := parseDates_ok_of_all 0 hall
  simp only [pipelineBody, hD, hds, findIdx?_beq_none h 0]

lemma pipelineBody_missing_kwh {loc : PyLocale} {c : Csv} {iD iT : ℕ}
    (hD : c.header.findIdx? (fun x => x == "Date") = some iD)
    (hall : ∀ row ∈ c.rows, (parseDate (getCell row iD)).isSome)
    (hT : c.header.findIdx? (fun x => x == "Total") = some iT)
    (h : "kWh" ∉ c.header) :
    pipelineBody loc c = .error (.keyError "kWh") := by
  obtain ⟨ds, hds⟩ := parseDates_ok_of_all 0 hall
  simp only [pipelineBody, hD, hds, hT, findIdx?_beq_none h 0]

lemma pipelineBody_bad_date {loc : PyLocale} {c : Csv} {iD : ℕ}
    (hD : c.header.findIdx? (fun x => x == "Date") = some iD)
    (hbad : ∃ row ∈ c.rows, parseDate (getCell row iD) = none) :
    ∃ i raw, pipelineBody loc c = .error (.dateParseError i raw) ∧
      parseDate raw = none := by
  obtain ⟨i, raw, heq, hraw⟩ := parseDates_error_of_bad 0 hbad
  exact ⟨i, raw, by simp only [pipelineBody, hD, heq], hraw⟩

lemma pipelineBody_typeError {loc : PyLocale} {c : Csv} {iD iT iK : ℕ}
    (hD : c.header.findIdx? (fun x => x == "Date") = some iD)
    (hall : ∀ row ∈ c.rows, (parseDate (getCell row iD)).isSome)
    (hT : c.header.findIdx? (fun x => x == "Total") = some iT)
    (hK : c.header.findIdx? (fun x => x == "kWh") = some iK)
    (hbad : parseColRat iT c.rows = none ∨ parseColRat iK c.rows = none) :
    pipelineBody loc c = .error PyError.typeError := by
  obtain ⟨ds, hds⟩ := parseDates_ok_of_all 0 hall
  rcases hbT : parseColRat iT c.rows with _ | ts <;>
    rcases hbK : parseColRat iK c.rows with _ | ks <;>
      simp only [pipelineBody, hD, hds, hT, hK, hbT, hbK] <;>
        simp_all

set_option maxHeartbeats 1000000 in
/-- `pipelineBody` on Scenario A's raw input, successfully producing
the two derived records. -/
lemma scenarioA_pipeline :
    pipelineBody englishLocale scenarioAInput = .ok scenarioARecords := by
  have d1 : parseDate "2024-01-15" = some ⟨2024, 1, 15⟩ := by decide
  have d2 : parseDate "2024-02-15" = some ⟨2024, 2, 15⟩ := by decide
  simp +decide [scenarioAInput, scenarioARecords, pipelineBody,
    parseDates, parseColRat, getCell, deriveAll, List.findIdx?_cons, List.findIdx?_nil,
    d1, d2, parseRat_7500, parseRat_9000, parseRat_500, parseRat_600]

/-- Claim C3, amended: a missing required column always fails the
pipeline with no partial dataset, and the failure is the
missing-column `KeyError` — for a missing `Date` column
unconditionally, but for a missing `kWh`/`Total` column only when
every `Date` value parses, because the date conversion runs first and
its error takes precedence. -/
theorem C3_missing_columns (loc : PyLocale) (c : Csv) :
    ("Date" ∉ c.header → pipelineBody loc c = .error (.keyError "Date")) ∧
    (∀ iD, c.header.findIdx? (fun x => x == "Date") = some iD →
      (∀ row ∈ c.rows, (parseDate (getCell row iD)).isSome) →
      ("Total" ∉ c.header → pipelineBody loc c = .error (.keyError "Total")) ∧
      (∀ iT, c.header.findIdx? (fun x => x == "Total") = some iT →
        "kWh" ∉ c.header → pipelineBody loc c = .error (.keyError "kWh"))) ∧
    (("Date" ∉ c.header ∨ "kWh" ∉ c.header ∨ "Total" ∉ c.header) →
      (∃ e, pipelineBody loc c = .error e) ∧
        load_fpl_data loc (.success c) = none) := by
  refine ⟨fun h => pipelineBody_missing_date h,
    fun iD hD hall =>
      ⟨fun h => pipelineBody_missing_total hD hall h,
       fun iT hT h => pipelineBody_missing_kwh hD hall hT h⟩,
    fun h => ?_⟩
  obtain ⟨e, he⟩ := pipelineBody_error_of_missing h
  exact ⟨⟨e, he⟩, load_none_of_error he⟩

/-- Claim C3, counterexample: the required column `Total` is absent
from the header, yet the pipeline fails with the row-level date-parse
error for row 0, not with the missing-column failure the claim
promises — the date conversion runs before the missing column is
touched. -/
theorem C3_counterexample :
    pipelineBody englishLocale ⟨["Date", "kWh"], [["garbage", "500"]]⟩ =
      .error (.dateParseError 0 "garbage") := rfl

/-- Witness for C3 at concrete inputs. -/
theorem C3_witness :
    pipelineBody englishLocale ⟨["kWh", "Total"], []⟩ = .error (.keyError "Date") ∧
    pipelineBody englishLocale ⟨["Date", "kWh"], [["2024-01-15", "500"]]⟩ =
      .error (.keyError "Total") ∧
    pipelineBody englishLocale ⟨["Date", "Total"], [["2024-01-15", "75"]]⟩ =
      .error (.keyError "kWh") ∧
    load_fpl_data englishLocale (.success ⟨["kWh", "Total"], []⟩) = none :=
  ⟨(C3_missing_columns englishLocale ⟨["kWh", "Total"], []⟩).1 (by decide),
   ((C3_missing_columns englishLocale ⟨["Date", "kWh"], [["2024-01-15", "500"]]⟩).2.1
      0 (by decide) (by decide)).1 (by decide),
   ((C3_missing_columns englishLocale ⟨["Date", "Total"], [["2024-01-15", "75"]]⟩).2.1
      0 (by decide) (by decide)).2 1 (by decide) (by decide),
   ((C3_missing_columns englishLocale ⟨["kWh", "Total"], []⟩).2.2
      (Or.inl (by decide))).2⟩

/-- Claim C4, amended: one bad row does fail the whole batch with no
partial dataset (fail-fast holds), but the failure is not the
structured row error the claim promises in every case: an unparseable
date raises an error carrying the row index and raw value, while a
non-numeric `kWh`/`Total` raises a payload-free `TypeError`, and at
the public boundary every failure is collapsed to `None`. -/
theorem C4_row_failures (loc : PyLocale) (c : Csv) :
    (∀ iD, c.header.findIdx? (fun x => x == "Date") = some iD →
      (∃ row ∈ c.rows, parseDate (getCell row iD) = none) →
      ∃ i raw, pipelineBody loc c = .error (.dateParseError i raw) ∧
        parseDate raw = none ∧ load_fpl_data loc (.success c) = none) ∧
    (∀ iD iT iK, c.header.findIdx? (fun x => x == "Date") = some iD →
      c.header.findIdx? (fun x => x == "Total") = some iT →
      c.header.findIdx? (fun x => x == "kWh") = some iK →
      (∀ row ∈ c.rows, (parseDate (getCell row iD)).isSome) →
      ((∃ row ∈ c.rows, parseRat (getCell row iT) = none) ∨
        (∃ row ∈ c.rows, parseRat (getCell row iK) = none)) →
      pipelineBody loc c = .error PyError.typeError ∧
        load_fpl_data loc (.success c) = none) ∧
    (∀ e, pipelineBody loc c = .error e → load_fpl_data loc (.success c) = none) := by
  refine ⟨fun iD hD hbad => ?_, fun iD iT iK hD hT hK hall hbad => ?_,
    fun e he => load_none_of_error he⟩
  · obtain ⟨i, raw, heq, hraw⟩ := pipelineBody_bad_date hD hbad
    exact ⟨i, raw, heq, hraw, load_none_of_error heq⟩
  · have he : pipelineBody loc c = .error PyError.typeError := by
      refine pipelineBody_typeError hD hall hT hK ?_
      rcases hbad with hb | hb
      · exact Or.inl (parseColRat_none_of_bad hb)
      · exact Or.inr (parseColRat_none_of_bad hb)
    exact ⟨he, load_none_of_error he⟩

/-- Claim C4, counterexample: a batch whose single row has the
non-numeric `kWh` value "abc" fails, but with the payload-free
`TypeError` — no row index, column or raw value — and the public
loader returns the bare `None`, not a structured row error. -/
theorem C4_counterexample :
    pipelineBody englishLocale
      ⟨["Date", "kWh", "Total"], [["2024-01-15", "abc", "75.00"]]⟩ =
      .error PyError.typeError ∧
    load_fpl_data englishLocale
      (.success ⟨["Date", "kWh", "Total"], [["2024-01-15", "abc", "75.00"]]⟩) =
      none := ⟨rfl, rfl⟩

/-- Witness for C4 at concrete inputs. -/
theorem C4_witness :
    pipelineBody englishLocale ⟨["Date", "kWh", "Total"], [["2024-01-15", "x", "75"]]⟩ =
      .error PyError.typeError ∧
    load_fpl_data englishLocale
      (.success ⟨["Date", "kWh", "Total"], [["2024-01-15", "x", "75"]]⟩) = none ∧
    load_fpl_data englishLocale
      (.success ⟨["Date", "kWh", "Total"], [["oops", "500", "75"]]⟩) = none := by
  have hx := (C4_row_failures englishLocale
      ⟨["Date", "kWh", "Total"], [["2024-01-15", "x", "75"]]⟩).2.1 0 2 1 (by decide)
    (by decide) (by decide) (by decide)
    (Or.inr ⟨["2024-01-15", "x", "75"], by simp, by decide⟩)
  obtain ⟨i, raw, h1, h2, h3⟩ := (C4_row_failures englishLocale
      ⟨["Date", "kWh", "Total"], [["oops", "500", "75"]]⟩).1 0 (by decide)
    ⟨["oops", "500", "75"], by simp, by decide⟩
  exact ⟨hx.1, hx.2, h3⟩

/-- Claim C8, amended: `Year` and `Month` are consistent with `date`
(with `Month` in 1..12 for every record a successful pipeline run
produces), but `Month_Name` is produced by the locale-aware
`strftime('%B')` — it equals the current locale's full month name,
which agrees with the fixed 12-entry English table only under the
default English/C locale, not by construction from a fixed table. -/
theorem C8_calendar_parts (loc : PyLocale) (d : Date) (k t : ℚ) :
    (deriveRow loc d k t).Year = d.year ∧
    (deriveRow loc d k t).Month = d.month ∧
    (deriveRow loc d k t).Month_Name = loc.monthName d.month ∧
    (deriveRow englishLocale d k t).Month_Name = monthTable.getD (d.month - 1) "" ∧
    (∀ c recs, pipelineBody loc c = .ok recs → ∀ r ∈ recs,
      r.Year = r.date.year ∧ r.Month = r.date.month ∧
        1 ≤ r.Month ∧ r.Month ≤ 12 ∧ r.Month_Name = loc.monthName r.date.month) := by
  refine ⟨rfl, rfl, rfl, rfl, fun c recs h r hr => ?_⟩
  obtain ⟨s, d2, k2, t2, hs, rfl⟩ := pipelineBody_ok_mem h r hr
  obtain ⟨h1, h2⟩ := parseDate_month_range hs
  exact ⟨rfl, rfl, h1, h2, rfl⟩

/-- Claim C8, counterexample: the derived `Month_Name` is a function
of the process locale — under a locale whose `%B` table differs from
the English one the very same record derives a different month name,
so the name is produced by locale-aware formatting, not taken from
the fixed English table. -/
theorem C8_counterexample :
    (deriveRow ⟨fun _ => "janvier"⟩ ⟨2024, 1, 15⟩ 500 75).Month_Name = "janvier" ∧
    (deriveRow englishLocale ⟨2024, 1, 15⟩ 500 75).Month_Name = "January" ∧
    (deriveRow ⟨fun _ => "janvier"⟩ ⟨2024, 1, 15⟩ 500 75).Month_Name ≠
      (deriveRow englishLocale ⟨2024, 1, 15⟩ 500 75).Month_Name := by
  refine ⟨rfl, rfl, ?_⟩
  decide

/-- Witness for C8 on a record of Scenario A's pipeline run. -/
theorem C8_witness :
    (deriveRow englishLocale ⟨2024, 1, 15⟩ 500 75).Year =
      (deriveRow englishLocale ⟨2024, 1, 15⟩ 500 75).date.year ∧
    (deriveRow englishLocale ⟨2024, 1, 15⟩ 500 75).Month =
      (deriveRow englishLocale ⟨2024, 1, 15⟩ 500 75).date.month ∧
    1 ≤ (deriveRow englishLocale ⟨2024, 1, 15⟩ 500 75).Month ∧
    (deriveRow englishLocale ⟨2024, 1, 15⟩ 500 75).Month ≤ 12 ∧
    (deriveRow englishLocale ⟨2024, 1, 15⟩ 500 75).Month_Name =
      englishLocale.monthName (deriveRow englishLocale ⟨2024, 1, 15⟩ 500 75).date.month :=
  (C8_calendar_parts englishLocale ⟨2024, 1, 15⟩ 500 75).2.2.2.2 scenarioAInput
    scenarioARecords scenarioA_pipeline
    (deriveRow englishLocale ⟨2024, 1, 15⟩ 500 75) (by simp [scenarioARecords])

/-- Claim C9, amended: the year-over-year table has one row per
distinct year of the whole dataset, ascending, each row carrying
exactly the per-year aggregate's sums and mean; but it is only
produced when the dataset has more than one distinct year (and the
selected year has data) — with a single distinct year no table is
built. -/
theorem C9_annual_summary (df : List DerivedRecord) (y : ℤ) :
    annual_summary df =
      (available_years df).map
        (fun y2 => ⟨y2, total_kwh df y2, total_cost df y2, avg_unit_cost df y2⟩) ∧
    (∀ y2, (∃ row ∈ annual_summary df, row.Year = y2) ↔ ∃ r ∈ df, r.Year = y2) ∧
    ((annual_summary df).map (fun row => row.Year)).Nodup ∧
    List.Sorted (· ≤ ·) ((annual_summary df).map (fun row => row.Year)) ∧
    (1 < (available_years df).length → 0 < num_bills df y →
      annual_summary_view df y = some (annual_summary df)) ∧
    ((available_years df).length ≤ 1 → annual_summary_view df y = none) := by
  have hyears : (annual_summary df).map (fun row => row.Year) = available_years df := by
    simp [annual_summary, List.map_map, Function.comp_def]
  have hnodup : (available_years df).Nodup :=
    ((List.perm_insertionSort _ _).nodup_iff).mpr (List.nodup_dedup _)
  refine ⟨?_, fun y2 => ?_, ?_, ?_, fun h1 h2 => ?_, fun h => ?_⟩
  · refine List.map_eq_map_iff.mpr (fun y2 _ => ?_)
    simp [total_kwh_eq_group, total_cost_eq_group, avg_unit_cost_eq_group]
  · constructor
    · rintro ⟨row, hrow, rfl⟩
      have : row.Year ∈ (annual_summary df).map (fun row => row.Year) :=
        List.mem_map.mpr ⟨row, hrow, rfl⟩
      rw [hyears] at this
      exact mem_available_years.mp this
    · intro hr
      have : y2 ∈ (annual_summary df).map (fun row => row.Year) := by
        rw [hyears]; exact mem_available_years.mpr hr
      obtain ⟨row, hrow, hy⟩ := List.mem_map.mp this
      exact ⟨row, hrow, hy⟩
  · rw [hyears]; exact hnodup
  · rw [hyears]; exact List.sorted_insertionSort _ _
  · have h2b : 0 < (year_df df y).length := h2
    simp [annual_summary_view, h1, h2b]
  · have h1b : ¬ 1 < (available_years df).length := by omega
    simp only [annual_summary_view]
    split_ifs <;> simp_all

/-- Claim C9, counterexample: a dataset with a single distinct year
(one 2024 record, with 2024 selected): the claim requires the
AnnualSummary table to exist with exactly one row, but the code's
`len(available_years) > 1` guard produces no table at all. -/
theorem C9_counterexample :
    annual_summary_view [deriveRow englishLocale ⟨2024, 1, 15⟩ 500 75] 2024 = none ∧
    available_years [deriveRow englishLocale ⟨2024, 1, 15⟩ 500 75] = [2024] := by
  constructor
  · decide
  · decide

/-- Witness for C9 at concrete inputs. -/
theorem C9_witness :
    annual_summary_view
      [deriveRow englishLocale ⟨2024, 1, 15⟩ 500 75,
       deriveRow englishLocale ⟨2023, 3, 10⟩ 400 60] 2024 =
      some (annual_summary
        [deriveRow englishLocale ⟨2024, 1, 15⟩ 500 75,
         deriveRow englishLocale ⟨2023, 3, 10⟩ 400 60]) ∧
    annual_summary_view [deriveRow englishLocale ⟨2024, 1, 15⟩ 500 75] 2023 = none :=
  ⟨(C9_annual_summary
      [deriveRow englishLocale ⟨2024, 1, 15⟩ 500 75,
       deriveRow englishLocale ⟨2023, 3, 10⟩ 400 60] 2024).2.2.2.2.1
      (by decide) (by decide),
   (C9_annual_summary [deriveRow englishLocale ⟨2024, 1, 15⟩ 500 75] 2023).2.2.2.2.2
      (by decide)⟩

/-- Claim C10, confirmed: `load_fpl_data` is total — it returns
either the fully derived dataset or the single sentinel `None`; a
fetch failure returns `None`, every pipeline exception is caught and
returns the same bare `None` (so all failure classes are
indistinguishable and carry no error structure), and a successful
pipeline returns the full record list. -/
theorem C10_boundary (loc : PyLocale) (c : Csv) :
    load_fpl_data loc .failure = none ∧
    (∀ e, pipelineBody loc c = .error e → load_fpl_data loc (.success c) = none) ∧
    (∀ recs, pipelineBody loc c = .ok recs →
      load_fpl_data loc (.success c) = some recs) ∧
    (load_fpl_data loc (.success c) = none ∨
      ∃ recs, load_fpl_data loc (.success c) = some recs) := by
  refine ⟨rfl, fun e he => load_none_of_error he, fun recs hr => ?_, ?_⟩
  · simp [load_fpl_data, hr, Except.toOption]
  · rcases h : pipelineBody loc c with e | recs
    · exact Or.inl (load_none_of_error h)
    · exact Or.inr ⟨recs, by simp [load_fpl_data, h, Except.toOption]⟩

/-- Witness for C10 at concrete inputs. -/
theorem C10_witness :
    load_fpl_data englishLocale .failure = none ∧
    load_fpl_data englishLocale (.success ⟨["X"], []⟩) = none ∧
    load_fpl_data englishLocale (.success scenarioAInput) = some scenarioARecords :=
  ⟨(C10_boundary englishLocale ⟨["X"], []⟩).1,
   (C10_boundary englishLocale ⟨["X"], []⟩).2.1 (.keyError "Date") rfl,
   (C10_boundary englishLocale scenarioAInput).2.2.1 scenarioARecords scenarioA_pipeline⟩
